import Mathlib

/-!
Shallow embedding of the `forge-middleware` crate: a dual-mode ethers
middleware (`Forge`) that answers client requests either from a local
execution engine (an `Evm` + `VmShow` value guarded by a `RwLock`) or by
delegating to an optional inner remote provider.

Modelling conventions:
- `U256`/`U64`/`H256`/`Address` are `Nat` (only equality, comparison and
  subtraction matter to this crate; where Rust would panic on underflow or
  on `as_u64` overflow, theorems carry the hypotheses `0 < block_number`
  and `block_number < 2 ^ 64` that make `Nat` arithmetic agree).
- `Bytes` is `List Nat`.
- The engine (`evm_adapters::Evm` + `VmShow`, external collaborators) is a
  record of functions over an abstract state type `St`; fallible mutating
  methods (`call_raw`, `deploy`) take `&mut self` in Rust, so they return
  a (possibly updated) state alongside the `Result`, on errors as well.
- The inner middleware stack (remote provider) is a record of the methods
  the crate reaches through `self.inner()` (directly or via default
  `Middleware` trait methods); remote round trips are modelled as pure
  deterministic functions.
- Async methods lock the `RwLock` and run to completion; they are
  modelled as explicit state-passing functions.
-/

namespace ForgeMiddleware

abbrev Address := Nat
abbrev Hash := Nat
abbrev Bytes := List Nat

/-- `H256::default()` (the all-zero hash) in the `Nat` model of `H256`. -/
def defaultHash : Hash := 0

/-- `ethers_core::types::NameOrAddress`: an ENS name or a concrete address. -/
inductive NameOrAddress where
  | Name (ens : String)
  | Address (a : Address)
deriving DecidableEq, Repr

/-- One entry of an EIP-2930 access list: an address and its storage keys. -/
structure AccessListItem where
  address : Address
  storage_keys : List Hash
deriving DecidableEq, Repr

abbrev AccessList := List AccessListItem

/-- `ethers_core::types::transaction::eip2930::AccessListWithGasUsed`. -/
structure AccessListWithGasUsed where
  access_list : AccessList
  gas_used : Nat
deriving DecidableEq, Repr

/-- `ethers_core::types::BlockNumber` (pre-merge era: no safe/finalized tags). -/
inductive BlockNumber where
  | Latest
  | Earliest
  | Pending
  | Number (n : Nat)
deriving DecidableEq, Repr

/-- `ethers_core::types::BlockId`: a block hash or a block number/tag. -/
inductive BlockId where
  | Hash (h : Hash)
  | Number (n : BlockNumber)
deriving DecidableEq, Repr

/-- `ethers_core::types::TransactionRequest` (the legacy request body). -/
structure TransactionRequest where
  from_ : Option Address := none
  to_ : Option NameOrAddress := none
  gas : Option Nat := none
  gas_price : Option Nat := none
  value : Option Nat := none
  data : Option Bytes := none
deriving DecidableEq, Repr

/-- EIP-2930 request: a legacy body plus an access list. -/
structure Eip2930TransactionRequest where
  tx : TransactionRequest
  access_list : AccessList
deriving DecidableEq, Repr

/-- EIP-1559 request: fee-market fields replace the single gas price. -/
structure Eip1559TransactionRequest where
  from_ : Option Address := none
  to_ : Option NameOrAddress := none
  gas : Option Nat := none
  value : Option Nat := none
  data : Option Bytes := none
  access_list : AccessList := []
  max_priority_fee_per_gas : Option Nat := none
  max_fee_per_gas : Option Nat := none
deriving DecidableEq, Repr

/-- `ethers_core::types::transaction::eip2718::TypedTransaction`. -/
inductive TypedTransaction where
  | Legacy (tx : TransactionRequest)
  | Eip2930 (tx : Eip2930TransactionRequest)
  | Eip1559 (tx : Eip1559TransactionRequest)
deriving DecidableEq, Repr

namespace TypedTransaction

/-- `TypedTransaction::from`. -/
def from_ : TypedTransaction → Option Address
  | .Legacy tx => tx.from_
  | .Eip2930 tx => tx.tx.from_
  | .Eip1559 tx => tx.from_

/-- `TypedTransaction::to` (`to` is reserved in Lean, hence `to_`). -/
def to_ : TypedTransaction → Option NameOrAddress
  | .Legacy tx => tx.to_
  | .Eip2930 tx => tx.tx.to_
  | .Eip1559 tx => tx.to_

/-- `TypedTransaction::data`. -/
def data : TypedTransaction → Option Bytes
  | .Legacy tx => tx.data
  | .Eip2930 tx => tx.tx.data
  | .Eip1559 tx => tx.data

/-- `TypedTransaction::value`. -/
def value : TypedTransaction → Option Nat
  | .Legacy tx => tx.value
  | .Eip2930 tx => tx.tx.value
  | .Eip1559 tx => tx.value

/-- `TypedTransaction::gas`. -/
def gas : TypedTransaction → Option Nat
  | .Legacy tx => tx.gas
  | .Eip2930 tx => tx.tx.gas
  | .Eip1559 tx => tx.gas

/-- `TypedTransaction::gas_price` (for EIP-1559 this reads the max fee). -/
def gas_price : TypedTransaction → Option Nat
  | .Legacy tx => tx.gas_price
  | .Eip2930 tx => tx.tx.gas_price
  | .Eip1559 tx => tx.max_fee_per_gas

/-- `TypedTransaction::access_list`: absent for legacy transactions. -/
def access_list : TypedTransaction → Option AccessList
  | .Legacy _ => none
  | .Eip2930 tx => some tx.access_list
  | .Eip1559 tx => some tx.access_list

/-- `TypedTransaction::set_from`. -/
def set_from (t : TypedTransaction) (a : Address) : TypedTransaction :=
  match t with
  | .Legacy tx => .Legacy { tx with from_ := some a }
  | .Eip2930 tx => .Eip2930 { tx with tx := { tx.tx with from_ := some a } }
  | .Eip1559 tx => .Eip1559 { tx with from_ := some a }

/-- `TypedTransaction::set_to`. -/
def set_to (t : TypedTransaction) (id : NameOrAddress) : TypedTransaction :=
  match t with
  | .Legacy tx => .Legacy { tx with to_ := some id }
  | .Eip2930 tx => .Eip2930 { tx with tx := { tx.tx with to_ := some id } }
  | .Eip1559 tx => .Eip1559 { tx with to_ := some id }

/-- `TypedTransaction::set_value`. -/
def set_value (t : TypedTransaction) (v : Nat) : TypedTransaction :=
  match t with
  | .Legacy tx => .Legacy { tx with value := some v }
  | .Eip2930 tx => .Eip2930 { tx with tx := { tx.tx with value := some v } }
  | .Eip1559 tx => .Eip1559 { tx with value := some v }

/-- `TypedTransaction::set_gas`. -/
def set_gas (t : TypedTransaction) (g : Nat) : TypedTransaction :=
  match t with
  | .Legacy tx => .Legacy { tx with gas := some g }
  | .Eip2930 tx => .Eip2930 { tx with tx := { tx.tx with gas := some g } }
  | .Eip1559 tx => .Eip1559 { tx with gas := some g }

/-- `TypedTransaction::set_gas_price` (for EIP-1559 it sets both fee caps). -/
def set_gas_price (t : TypedTransaction) (p : Nat) : TypedTransaction :=
  match t with
  | .Legacy tx => .Legacy { tx with gas_price := some p }
  | .Eip2930 tx => .Eip2930 { tx with tx := { tx.tx with gas_price := some p } }
  | .Eip1559 tx =>
      .Eip1559 { tx with max_fee_per_gas := some p, max_priority_fee_per_gas := some p }

/-- `TypedTransaction::set_access_list` (a no-op on legacy transactions). -/
def set_access_list (t : TypedTransaction) (al : AccessList) : TypedTransaction :=
  match t with
  | .Legacy tx => .Legacy tx
  | .Eip2930 tx => .Eip2930 { tx with access_list := al }
  | .Eip1559 tx => .Eip1559 { tx with access_list := al }

/-- Encoding of an optional word as a byte-list fragment. -/
def encOpt : Option Nat → List Nat
  | none => [0]
  | some n => [1, n]

/-- Encoding of an optional destination as a byte-list fragment. -/
def encTo : Option NameOrAddress → List Nat
  | none => [0]
  | some (.Name s) => 1 :: (s.toList.map Char.toNat)
  | some (.Address a) => [2, a]

/-- Encoding of an access list as a byte-list fragment. -/
def encAl (al : AccessList) : List Nat :=
  al.flatMap (fun item => item.address :: item.storage_keys)

/-- Flat encoding of the full transaction content (stand-in for its RLP). -/
def encode : TypedTransaction → List Nat
  | .Legacy tx =>
      0 :: (encOpt tx.from_ ++ encTo tx.to_ ++ encOpt tx.gas ++ encOpt tx.gas_price
        ++ encOpt tx.value ++ (tx.data.getD []))
  | .Eip2930 tx =>
      1 :: (encOpt tx.tx.from_ ++ encTo tx.tx.to_ ++ encOpt tx.tx.gas
        ++ encOpt tx.tx.gas_price ++ encOpt tx.tx.value ++ (tx.tx.data.getD [])
        ++ encAl tx.access_list)
  | .Eip1559 tx =>
      2 :: (encOpt tx.from_ ++ encTo tx.to_ ++ encOpt tx.gas ++ encOpt tx.value
        ++ (tx.data.getD []) ++ encAl tx.access_list
        ++ encOpt tx.max_priority_fee_per_gas ++ encOpt tx.max_fee_per_gas)

/-- `TypedTransaction::sighash`: the signature hash over the transaction
content. Stand-in for `keccak256` of the RLP encoding (computed by the
external `ethers-core` library); modelled as a deterministic accumulator
over the encoded content. -/
def sighash (t : TypedTransaction) : Hash :=
  (encode t).foldl (fun h x => h * 2147483647 + x + 1) 0

end TypedTransaction

/-- `evm_adapters::EvmError` (only the `Eyre` wrapping reached here). -/
inductive EvmError where
  | Eyre (msg : String)
deriving DecidableEq, Repr

/-- `ForgeError<M>`: the unified error taxonomy of the middleware. The inner
middleware error type `M::Error` and `ProviderError` are modelled as
strings (their content is opaque to this crate). -/
inductive ForgeError where
  | MiddlewareError (e : String)
  | ProviderError (e : String)
  | EvmError (e : EvmError)
deriving DecidableEq, Repr

/-- `TxOutput`: the result payload of one transaction application. -/
inductive TxOutput where
  | CallRes (bytes : Bytes)
  | CreateRes (addr : Address)
deriving DecidableEq, Repr

/-- `TxOutput::maybe_addr`. -/
def TxOutput.maybe_addr : TxOutput → Option Address
  | .CreateRes addr => some addr
  | _ => none

/-- `TxOutput::maybe_bytes`. -/
def TxOutput.maybe_bytes : TxOutput → Option Bytes
  | .CallRes bytes => some bytes
  | _ => none

/-- `TxRes<Ex>`: structured result of `Evm::call_raw` / `Evm::deploy`. -/
structure TxRes (Ex : Type) where
  output : TxOutput
  exit : Ex
  gas : Nat
  logs : List String
deriving DecidableEq, Repr

/-- The execution-engine capability consumed by the crate: the used methods
of `evm_adapters::Evm<S>` together with the local `VmShow` accessors.
`call_raw` and `deploy` take `&mut self` in Rust, so they return the
updated engine state even when they fail. `state()` and `reset` of the
Rust trait are the identity and replacement on `St` respectively. -/
structure Engine (St Ex : Type) where
  call_raw : St → Address → Address → Bytes → Nat → Bool →
    Except EvmError (Bytes × Ex × Nat × List String) × St
  deploy : St → Address → Bytes → Nat →
    Except EvmError (Address × Ex × Nat × List String) × St
  is_success : Ex → Bool
  gas_price : St → Nat
  block_number : St → Nat
  chain_id : St → Nat
  balance : St → Address → Nat
  gas_limit : St → Nat
  block_hash : St → Nat → Hash

/-- The surface of the inner middleware stack that `Forge` reaches through
`self.inner()` — directly, or via default `Middleware` trait methods
(`resolve_name`, `get_code`, `create_access_list`,
`estimate_eip1559_fees`, `default_sender`). Failures carry the opaque
`M::Error` payload. -/
structure RemoteProvider where
  default_sender : Option Address
  resolve_name : String → Except String Address
  get_code : Address → Option BlockId → Except String Bytes
  create_access_list : TypedTransaction → Option BlockId →
    Except String AccessListWithGasUsed
  estimate_eip1559_fees : Except String (Nat × Nat)
  get_gas_price : Except String Nat
  get_balance : NameOrAddress → Option BlockId → Except String Nat

/-- `Inner<T>`: a usable fallback provider, or a dummy not to be used. -/
inductive Inner (T : Type) where
  | Use (t : T)
  | Not (t : T)

/-- `Inner::is_not`. -/
def Inner.is_not : Inner T → Bool
  | .Not _ => true
  | _ => false

/-- `Inner::is_use`. -/
def Inner.is_use : Inner T → Bool
  | .Use _ => true
  | _ => false

/-- `Inner::get`. -/
def Inner.get : Inner T → T
  | .Use x => x
  | .Not x => x

/-- The dummy `Provider<NoClient>`: every request is `unreachable!` in Rust,
modelled as an immediate opaque failure; its default sender is unset. -/
def noClient : RemoteProvider where
  default_sender := none
  resolve_name := fun _ => .error "unreachable: cannot send requests"
  get_code := fun _ _ => .error "unreachable: cannot send requests"
  create_access_list := fun _ _ => .error "unreachable: cannot send requests"
  estimate_eip1559_fees := .error "unreachable: cannot send requests"
  get_gas_price := .error "unreachable: cannot send requests"
  get_balance := fun _ _ => .error "unreachable: cannot send requests"

/-- `Forge<M, E, S>`: the dispatch core. The engine state is threaded
explicitly through each operation, so the struct carries the engine's
method table and the inner provider reference. -/
structure Forge (St Ex : Type) where
  vm : Engine St Ex
  inner : Inner RemoteProvider

/-- `DEFAULT_SENDER`, parsed: `0xD3D13a578a53685B4ac36A1Bab31912D2B2A2F36`. -/
def DEFAULT_SENDER : Address := 0xD3D13a578a53685B4ac36A1Bab31912D2B2A2F36

namespace Forge

variable {St Ex : Type}

/-- Default `Middleware::resolve_name`: delegate to the inner provider,
wrapping its failure with `FromErr::from` (→ `MiddlewareError`). -/
def resolve_name (f : Forge St Ex) (ens : String) : Except ForgeError Address :=
  match f.inner.get.resolve_name ens with
  | .ok a => .ok a
  | .error e => .error (.MiddlewareError e)

/-- Default `Middleware::get_code`: delegate to the inner provider. -/
def get_code (f : Forge St Ex) (a : Address) (blk : Option BlockId) :
    Except ForgeError Bytes :=
  match f.inner.get.get_code a blk with
  | .ok c => .ok c
  | .error e => .error (.MiddlewareError e)

/-- Default `Middleware::create_access_list`: delegate to the inner provider. -/
def create_access_list (f : Forge St Ex) (tx : TypedTransaction)
    (blk : Option BlockId) : Except ForgeError AccessListWithGasUsed :=
  match f.inner.get.create_access_list tx blk with
  | .ok r => .ok r
  | .error e => .error (.MiddlewareError e)

/-- Default `Middleware::estimate_eip1559_fees`: delegate to the inner
provider (the local engine models no fee market). -/
def estimate_eip1559_fees (f : Forge St Ex) : Except ForgeError (Nat × Nat) :=
  match f.inner.get.estimate_eip1559_fees with
  | .ok r => .ok r
  | .error e => .error (.MiddlewareError e)

/-- Default `Middleware::default_sender`: delegate to the inner provider. -/
def default_sender (f : Forge St Ex) : Option Address :=
  f.inner.get.default_sender

/-- `Forge::to_addr` (core.rs): resolve a `NameOrAddress` to an address. -/
def to_addr (f : Forge St Ex) (id : NameOrAddress) : Except ForgeError Address :=
  match id with
  | .Name ens => f.resolve_name ens
  | .Address a => .ok a

/-- `Forge::apply_tx` (core.rs): apply one transaction to engine state. -/
def apply_tx (f : Forge St Ex) (s : St) (tx : TypedTransaction) :
    Except ForgeError (TxRes Ex) × St :=
  let sender := tx.from_.getD DEFAULT_SENDER
  let data := tx.data.getD []
  let val := tx.value.getD 0
  match tx.to_ with
  | some id =>
      match (match id with
             | .Name ens => f.resolve_name ens
             | .Address a => .ok a) with
      | .error e => (.error e, s)
      | .ok toAddr =>
          match f.vm.call_raw s sender toAddr data val false with
          | (.ok (bytes, exit, gas, logs), s') =>
              (.ok ⟨.CallRes bytes, exit, gas, logs⟩, s')
          | (.error e, s') => (.error (.EvmError e), s')
  | none =>
      match f.vm.deploy s sender data val with
      | (.ok (addr, exit, gas, logs), s') =>
          (.ok ⟨.CreateRes addr, exit, gas, logs⟩, s')
      | (.error e, s') => (.error (.EvmError e), s')

/-- `Middleware::get_block_number` for `Forge`: the engine's block counter,
narrowed with `as_u64` (which panics above `2 ^ 64`; theorems that rely on
this operation carry the fitting hypothesis). -/
def get_block_number (f : Forge St Ex) (s : St) : Except ForgeError Nat :=
  .ok (f.vm.block_number s)

/-- `Forge::is_latest` (core.rs): the state classifier. -/
def is_latest (f : Forge St Ex) (s : St) (id : BlockId) :
    Except ForgeError Bool :=
  match id with
  | .Hash hash =>
      let last_hash := f.vm.block_hash s (f.vm.block_number s - 1)
      .ok (!(last_hash == defaultHash) && (hash == last_hash))
  | .Number n =>
      match n with
      | .Latest => .ok true
      | .Number num =>
          match f.get_block_number s with
          | .ok bn => .ok (num == bn - 1)
          | .error e => .error e
      | .Pending => .ok true
      | .Earliest => .ok false

/-- `Middleware::estimate_gas` for `Forge`: the engine's block gas limit. -/
def estimate_gas (f : Forge St Ex) (s : St) (_tx : TypedTransaction) :
    Except ForgeError Nat :=
  .ok (f.vm.gas_limit s)

/-- `Middleware::get_gas_price` for `Forge`: the engine's gas price. -/
def get_gas_price (f : Forge St Ex) (s : St) : Except ForgeError Nat :=
  .ok (f.vm.gas_price s)

/-- `Middleware::call` for `Forge`: snapshot state, run the transaction,
return bytes (deployed code for a creation), then reset to the snapshot.
The `?` on `apply_tx` and `get_code` returns early, before the reset. -/
def call (f : Forge St Ex) (s : St) (tx : TypedTransaction)
    (_blk : Option BlockId) : Except ForgeError Bytes × St :=
  let state := s
  match f.apply_tx s tx with
  | (.error e, s') => (.error e, s')
  | (.ok res, s') =>
      match res.output with
      | .CallRes b => (.ok b, state)
      | .CreateRes addr =>
          match f.get_code addr none with
          | .error e => (.error e, s')
          | .ok code => (.ok code, state)

end Forge

/-- `ethers_providers::maybe`: keep a present value, otherwise run the query. -/
def maybe (x : Option α) (query : Except ForgeError α) : Except ForgeError α :=
  match x with
  | some v => .ok v
  | none => query

/-- `ethers_core::types::TransactionReceipt` (the fields of the struct, each
with its `Default::default()` value). -/
structure TransactionReceipt where
  transaction_hash : Hash := 0
  transaction_index : Nat := 0
  block_hash : Option Hash := none
  block_number : Option Nat := none
  cumulative_gas_used : Nat := 0
  gas_used : Option Nat := none
  contract_address : Option Address := none
  logs : List String := []
  status : Option Nat := none
  root : Option Hash := none
  logs_bloom : Nat := 0
  effective_gas_price : Option Nat := none
deriving DecidableEq, Repr

/-- `ethers_providers::PendingTxState` (the states this crate constructs:
`PendingTransaction::new` starts in the initial delay, and
`send_transaction` overrides it to `CheckingReceipt(Some(receipt))`). -/
inductive PendingTxState where
  | InitialDelay
  | CheckingReceipt (receipt : Option TransactionReceipt)
deriving DecidableEq, Repr

/-- `ethers_providers::PendingTransaction` (hash plus polling state). -/
structure PendingTransaction where
  tx_hash : Hash
  state : PendingTxState
deriving DecidableEq, Repr

namespace Forge

variable {St Ex : Type}

/-- Step 1 of `Forge::fill_transaction` (middleware.rs 190–194): set the
configured default sender when the transaction has none. -/
def fill_sender (f : Forge St Ex) (tx : TypedTransaction) : TypedTransaction :=
  match f.default_sender with
  | some ds => if tx.from_ = none then tx.set_from ds else tx
  | none => tx

/-- Step 2 of `Forge::fill_transaction` (middleware.rs 199–203): resolve an
ENS destination to a concrete address. -/
def fill_ens (f : Forge St Ex) (tx : TypedTransaction) :
    Except ForgeError TypedTransaction :=
  match tx.to_ with
  | some (.Name ens) =>
      match f.resolve_name ens with
      | .ok addr => .ok (tx.set_to (.Address addr))
      | .error e => .error e
  | _ => .ok tx

/-- Steps 3–4 of `Forge::fill_transaction` (middleware.rs 205–226): the plain
gas estimate, then the access-list pass; the computed list and its gas are
adopted only when strictly cheaper, and a failing `create_access_list` is
skipped with `if let Ok`. -/
def fill_gas_and_access_list (f : Forge St Ex) (s : St) (tx : TypedTransaction)
    (blk : Option BlockId) : Except ForgeError TypedTransaction :=
  match maybe tx.gas (f.estimate_gas s tx) with
  | .error e => .error e
  | .ok gas =>
      match tx.access_list with
      | some al =>
          if al = [] then
            match f.create_access_list tx blk with
            | .ok al_with_gas =>
                if al_with_gas.gas_used < gas then
                  .ok ((tx.set_access_list al_with_gas.access_list).set_gas
                        al_with_gas.gas_used)
                else .ok (tx.set_gas gas)
            | .error _ => .ok (tx.set_gas gas)
          else .ok (tx.set_gas gas)
      | none => .ok (tx.set_gas gas)

/-- Step 5 of `Forge::fill_transaction` (middleware.rs 228–241): fee fields —
gas price for legacy/EIP-2930 schemes, both fee caps for EIP-1559. -/
def fill_fees (f : Forge St Ex) (s : St) (tx : TypedTransaction) :
    Except ForgeError TypedTransaction :=
  match tx with
  | .Eip2930 _ | .Legacy _ =>
      match maybe tx.gas_price (f.get_gas_price s) with
      | .ok gp => .ok (tx.set_gas_price gp)
      | .error e => .error e
  | .Eip1559 inner =>
      if inner.max_fee_per_gas = none ∨ inner.max_priority_fee_per_gas = none then
        match f.estimate_eip1559_fees with
        | .ok fees =>
            .ok (.Eip1559 { inner with
              max_fee_per_gas := some fees.1,
              max_priority_fee_per_gas := some fees.2 })
        | .error e => .error e
      else .ok tx

/-- `Middleware::fill_transaction` for `Forge` (middleware.rs 185–244): the
sequential filling pipeline over the in-place mutated transaction. -/
def fill_transaction (f : Forge St Ex) (s : St) (tx : TypedTransaction)
    (blk : Option BlockId) : Except ForgeError TypedTransaction :=
  match f.fill_ens (f.fill_sender tx) with
  | .error e => .error e
  | .ok tx2 =>
      match f.fill_gas_and_access_list s tx2 blk with
      | .error e => .error e
      | .ok tx3 => f.fill_fees s tx3

/-- `Middleware::send_transaction` for `Forge` (middleware.rs 125–161): fill,
execute against the engine, and synthesize a receipt inside an
already-confirmed pending-transaction handle. -/
def send_transaction (f : Forge St Ex) (s : St) (tx0 : TypedTransaction)
    (blk : Option BlockId) : Except ForgeError PendingTransaction × St :=
  match f.fill_transaction s tx0 blk with
  | .error e => (.error e, s)
  | .ok tx =>
      match f.apply_tx s tx with
      | (.error e, s') => (.error e, s')
      | (.ok res, s') =>
          let gas_used := some res.gas
          let status := some (if f.vm.is_success res.exit then 1 else 0)
          let contract_address := res.output.maybe_addr
          let transaction_hash := tx.sighash
          let receipt : TransactionReceipt :=
            { gas_used := gas_used
              status := status
              contract_address := contract_address
              transaction_hash := transaction_hash }
          (.ok { tx_hash := transaction_hash
                 state := .CheckingReceipt (some receipt) }, s')

end Forge

/-! ### Concrete instances, used to exhibit witnesses and counterexamples -/

/-- A concrete engine over a `Nat` counter state: calls and deployments
succeed, bump the state, and report fixed gas figures; the head counter
is 5 and only block 4 (head − 1) has a recorded hash. -/
def testEngine : Engine Nat Bool where
  call_raw := fun s _ _ _ _ _ => (.ok ([1, 2, 3], true, 21000, []), s + 1)
  deploy := fun s _ _ _ => (.ok (66, true, 53000, []), s + 1)
  is_success := fun e => e
  gas_price := fun _ => 5
  block_number := fun _ => 5
  chain_id := fun _ => 1
  balance := fun _ _ => 100
  gas_limit := fun _ => 30000000
  block_hash := fun _ n => if n = 4 then 777 else 0

/-- A concrete remote provider whose answers differ from the engine's. -/
def testProvider : RemoteProvider where
  default_sender := none
  resolve_name := fun _ => .ok 900
  get_code := fun _ _ => .ok [96, 96]
  create_access_list := fun _ _ => .ok ⟨[⟨7, [1]⟩], 20000⟩
  estimate_eip1559_fees := .ok (3, 2)
  get_gas_price := .ok 7
  get_balance := fun _ _ => .ok 100

/-- Dispatch core over `testEngine` with `testProvider` as fallback. -/
def testForge : Forge Nat Bool := ⟨testEngine, .Use testProvider⟩

/-- An engine whose `call_raw` fails after mutating its state: legal for an
`Evm` implementor, whose `&mut self` methods may leave partial writes
behind on an error. -/
def errEngine : Engine Nat Bool :=
  { testEngine with call_raw := fun s _ _ _ _ _ => (.error (.Eyre "vm failure"), s + 1) }

/-- Dispatch core over the failing engine. -/
def errForge : Forge Nat Bool := ⟨errEngine, .Use testProvider⟩

/-- A provider whose `create_access_list` endpoint fails. -/
def alFailProvider : RemoteProvider :=
  { testProvider with create_access_list := fun _ _ => .error "access list rpc failure" }

/-- Dispatch core whose remote access-list pass fails. -/
def alFailForge : Forge Nat Bool := ⟨testEngine, .Use alFailProvider⟩

/-- Dispatch core over `testEngine` with the dummy disabled provider. -/
def forgeNoProv : Forge Nat Bool := ⟨testEngine, .Not noClient⟩

/-- A fully specified legacy call request. -/
def txCall : TypedTransaction :=
  .Legacy { from_ := some 1, to_ := some (.Address 2), gas := some 2300,
            gas_price := some 1, value := some 1 }

/-- A legacy deployment request (no destination, nonempty init code). -/
def txCreate : TypedTransaction :=
  .Legacy { from_ := some 1, data := some [0, 1] }

/-- A legacy request with gas set but gas price unset. -/
def req8 : TransactionRequest :=
  { from_ := some 1, to_ := some (.Address 2), gas := some 21000 }

/-- A legacy request with neither gas nor gas price set. -/
def txNoGas : TypedTransaction := .Legacy { from_ := some 1, to_ := some (.Address 2) }

/-- An EIP-2930 request with an empty access list and gas fields set. -/
def tx2930 : TypedTransaction :=
  .Eip2930 ⟨{ from_ := some 1, to_ := some (.Address 2), gas := some 21000,
              gas_price := some 1 }, []⟩

/-! ### Claims -/

/-- C1: the state classifier is correct. With engine head counter `N`
(positive and within `u64`, where the Rust arithmetic is total): a numeric
identifier routes local iff it equals `N − 1`; the tags `latest` and
`pending` always route local; any other tag (`earliest`) routes remote;
a hash identifier routes local iff the engine's stored hash for block
`N − 1` is not the default hash and the identifier equals it. -/
theorem is_latest_classifier_correct {St Ex : Type} (f : Forge St Ex) (s : St)
    (hpos : 0 < f.vm.block_number s) (hfit : f.vm.block_number s < 2 ^ 64) :
    (∀ num, f.is_latest s (.Number (.Number num)) = .ok true ↔
        num = f.vm.block_number s - 1) ∧
    f.is_latest s (.Number .Latest) = .ok true ∧
    f.is_latest s (.Number .Pending) = .ok true ∧
    f.is_latest s (.Number .Earliest) = .ok false ∧
    (∀ h, f.is_latest s (.Hash h) = .ok true ↔
        (f.vm.block_hash s (f.vm.block_number s - 1) ≠ defaultHash ∧
         h = f.vm.block_hash s (f.vm.block_number s - 1))) := by
  refine ⟨fun num => ?_, rfl, rfl, rfl, fun h => ?_⟩
  · simp [Forge.is_latest, Forge.get_block_number]
  · simp [Forge.is_latest, Bool.and_eq_true, and_comm]

/-- Witness for C1 at the concrete engine with head counter 5. -/
theorem is_latest_classifier_correct_witness :
    testForge.is_latest 0 (.Number (.Number 4)) = .ok true ∧
    testForge.is_latest 0 (.Number .Earliest) = .ok false ∧
    testForge.is_latest 0 (.Hash 777) = .ok true :=
  ⟨((is_latest_classifier_correct testForge 0 (by decide) (by decide)).1 4).mpr (by decide),
   (is_latest_classifier_correct testForge 0 (by decide) (by decide)).2.2.2.1,
   ((is_latest_classifier_correct testForge 0 (by decide) (by decide)).2.2.2.2 777).mpr
     (by decide)⟩

/-- C2 counterexample: when execution returns an error, `call` returns early
(`?`) without resetting, so an engine that mutates state before failing
leaves the post-call state different from the pre-call snapshot 0. -/
theorem call_state_not_restored_on_error_cex :
    errForge.call 0 txCall none = (.error (.EvmError (.Eyre "vm failure")), 1) ∧
    (1 : Nat) ≠ 0 :=
  ⟨rfl, by decide⟩

/-- Helper: a `call` that returns bytes has reset the engine state to the
snapshot taken on entry. -/
theorem call_ok_snapshot_aux {St Ex : Type} (f : Forge St Ex) (s : St)
    (tx : TypedTransaction) (blk : Option BlockId) (b : Bytes) (s₁ : St)
    (h : f.call s tx blk = (.ok b, s₁)) : s₁ = s := by
  unfold Forge.call at h
  rcases happ : f.apply_tx s tx with ⟨r, s''⟩
  rw [happ] at h
  rcases r with e | res
  · simp at h
  · obtain ⟨out, exitr, gasv, logsv⟩ := res
    rcases out with bs | addr
    · simp at h
      exact h.2.symm
    · simp only [] at h
      rcases hcode : f.get_code addr none with e | code <;> rw [hcode] at h <;> simp at h
      exact h.2.symm

/-- C2 (amended): `call` restores the engine state to the pre-call snapshot
whenever it returns bytes — on successful and reverting executions alike —
but when execution returns an error the error propagates immediately and
the reset step is skipped, leaving the state wherever execution left it. -/
theorem call_restores_state_on_ok {St Ex : Type} (f : Forge St Ex) (s : St)
    (tx : TypedTransaction) (blk : Option BlockId) :
    (∀ b s₁, f.call s tx blk = (.ok b, s₁) → s₁ = s) ∧
    (∀ e s', f.apply_tx s tx = (.error e, s') → f.call s tx blk = (.error e, s')) := by
  constructor
  · intro b s₁ h
    exact call_ok_snapshot_aux f s tx blk b s₁ h
  · intro e s' h
    unfold Forge.call
    rw [h]

/-- Witness for C2: the snapshot is restored on a successful call, and an
execution error propagates unreset. -/
theorem call_restores_state_on_ok_witness :
    (0 : Nat) = 0 ∧
    errForge.call 7 txCall none = (.error (.EvmError (.Eyre "vm failure")), 8) :=
  ⟨(call_restores_state_on_ok testForge 0 txCall none).1 [1, 2, 3] 0 rfl,
   (call_restores_state_on_ok errForge 7 txCall none).2 (.EvmError (.Eyre "vm failure")) 8 rfl⟩

/-- C3: `call` is idempotent — a successful call leaves the engine state at
the starting snapshot, and an immediate second identical call produces the
same bytes and the same (unchanged) state. -/
theorem call_idempotent {St Ex : Type} (f : Forge St Ex) (s : St)
    (tx : TypedTransaction) (blk : Option BlockId) (b : Bytes) (s₁ : St)
    (h : f.call s tx blk = (.ok b, s₁)) :
    s₁ = s ∧ f.call s₁ tx blk = (.ok b, s₁) := by
  have hs : s₁ = s := call_ok_snapshot_aux f s tx blk b s₁ h
  subst hs
  exact ⟨rfl, h⟩

/-- Witness for C3 at the concrete engine: both conjuncts at state 0. -/
theorem call_idempotent_witness :
    (0 : Nat) = 0 ∧ testForge.call 0 txCall none = (.ok [1, 2, 3], 0) :=
  call_idempotent testForge 0 txCall none [1, 2, 3] 0 rfl

/-- C4: execution output variants are exclusive — no destination takes the
create path and yields an address (never bytes); a present destination
takes the call path and yields bytes (never an address). -/
theorem apply_tx_output_variant {St Ex : Type} (f : Forge St Ex) (s : St)
    (tx : TypedTransaction) :
    (tx.to_ = none → ∀ res s', f.apply_tx s tx = (.ok res, s') →
        (∃ a, res.output = .CreateRes a) ∧ res.output.maybe_bytes = none) ∧
    (tx.to_ ≠ none → ∀ res s', f.apply_tx s tx = (.ok res, s') →
        (∃ bs, res.output = .CallRes bs) ∧ res.output.maybe_addr = none) := by
  constructor
  · intro hto res s' h
    simp only [Forge.apply_tx, hto] at h
    rcases hdep : f.vm.deploy s (tx.from_.getD DEFAULT_SENDER) (tx.data.getD [])
        (tx.value.getD 0) with ⟨r, s''⟩
    rw [hdep] at h
    rcases r with e | ⟨addr, exitr, gasv, logsv⟩
    · simp at h
    · simp at h
      obtain ⟨h1, -⟩ := h
      rw [← h1]
      exact ⟨⟨addr, rfl⟩, rfl⟩
  · intro hto res s' h
    rcases hto2 : tx.to_ with - | id
    · exact absurd hto2 hto
    · simp only [Forge.apply_tx, hto2] at h
      rcases hres : (match id with
          | NameOrAddress.Name ens => f.resolve_name ens
          | NameOrAddress.Address a => Except.ok a) with e | toAddr
      · rw [hres] at h; simp at h
      · rw [hres] at h
        simp only [] at h
        rcases hcr : f.vm.call_raw s (tx.from_.getD DEFAULT_SENDER) toAddr
            (tx.data.getD []) (tx.value.getD 0) false with ⟨r, s''⟩
        rw [hcr] at h
        rcases r with e | ⟨bs, exitr, gasv, logsv⟩
        · simp at h
        · simp at h
          obtain ⟨h1, -⟩ := h
          rw [← h1]
          exact ⟨⟨bs, rfl⟩, rfl⟩

/-- Witness for C4: a creation yields an address, a call yields bytes. -/
theorem apply_tx_output_variant_witness :
    ((∃ a, (TxRes.mk (TxOutput.CreateRes 66) true 53000 []).output = .CreateRes a) ∧
      (TxRes.mk (TxOutput.CreateRes 66) true 53000 ([] : List String)).output.maybe_bytes
        = none) ∧
    ((∃ bs, (TxRes.mk (TxOutput.CallRes [1, 2, 3]) true 21000 []).output = .CallRes bs) ∧
      (TxRes.mk (TxOutput.CallRes [1, 2, 3]) true 21000 ([] : List String)).output.maybe_addr
        = none) :=
  ⟨(apply_tx_output_variant testForge 0 txCreate).1 rfl ⟨.CreateRes 66, true, 53000, []⟩ 1 rfl,
   (apply_tx_output_variant testForge 0 txCall).2 (by simp [txCall, TypedTransaction.to_])
     ⟨.CallRes [1, 2, 3], true, 21000, []⟩ 1 rfl⟩

/-- C5: a successful `send_transaction` yields an already-confirmed handle
whose synthesized receipt has gas used = reported gas, status = 1 iff the
engine's success predicate holds, contract address = the create-path
address (present iff the create path ran), transaction hash = the sighash
over the filled transaction's content, and every other field default. -/
theorem receipt_synthesis {St Ex : Type} (f : Forge St Ex) (s : St)
    (tx0 : TypedTransaction) (blk : Option BlockId) (p : PendingTransaction) (s' : St)
    (h : f.send_transaction s tx0 blk = (.ok p, s')) :
    ∃ tx res, f.fill_transaction s tx0 blk = .ok tx ∧
      f.apply_tx s tx = (.ok res, s') ∧
      p = { tx_hash := tx.sighash,
            state := .CheckingReceipt (some
              { gas_used := some res.gas,
                status := some (if f.vm.is_success res.exit then 1 else 0),
                contract_address := res.output.maybe_addr,
                transaction_hash := tx.sighash }) } ∧
      (res.output.maybe_addr.isSome ↔ ∃ a, res.output = .CreateRes a) := by
  unfold Forge.send_transaction at h
  rcases hfill : f.fill_transaction s tx0 blk with e | tx
  · rw [hfill] at h; simp at h
  · rw [hfill] at h
    simp only [] at h
    rcases happ : f.apply_tx s tx with ⟨r, s''⟩
    rw [happ] at h
    rcases r with e | res
    · simp at h
    · have h' : ((Except.ok
          { tx_hash := tx.sighash,
            state := .CheckingReceipt (some
              { gas_used := some res.gas,
                status := some (if f.vm.is_success res.exit then 1 else 0),
                contract_address := res.output.maybe_addr,
                transaction_hash := tx.sighash }) }
          : Except ForgeError PendingTransaction), s'') = (.ok p, s') := h
      rw [Prod.mk.injEq, Except.ok.injEq] at h'
      obtain ⟨h1, h2⟩ := h'
      refine ⟨tx, res, rfl, ?_, h1.symm, ?_⟩
      · rw [happ, h2]
      · rcases res with ⟨out, exitr, gasv, logsv⟩
        rcases out with bs | addr
        · simp [TxOutput.maybe_addr]
        · simp [TxOutput.maybe_addr]

/-- The transaction `txCall` after the filling pipeline has run. -/
def txCallFilled : TypedTransaction := (txCall.set_gas 2300).set_gas_price 1

/-- The pending handle synthesized for `txCall` by the concrete dispatch. -/
def pendingC5 : PendingTransaction :=
  { tx_hash := txCallFilled.sighash,
    state := .CheckingReceipt (some
      { gas_used := some 21000, status := some 1, contract_address := none,
        transaction_hash := txCallFilled.sighash }) }

/-- Witness for C5 at the concrete dispatch core. -/
theorem receipt_synthesis_witness :
    ∃ tx res, testForge.fill_transaction 0 txCall none = .ok tx ∧
      testForge.apply_tx 0 tx = (.ok res, 1) ∧
      pendingC5 = { tx_hash := tx.sighash,
                    state := .CheckingReceipt (some
                      { gas_used := some res.gas,
                        status := some (if testForge.vm.is_success res.exit then 1 else 0),
                        contract_address := res.output.maybe_addr,
                        transaction_hash := tx.sighash }) } ∧
      (res.output.maybe_addr.isSome ↔ ∃ a, res.output = .CreateRes a) :=
  receipt_synthesis testForge 0 txCall none pendingC5 1 rfl

/-- Helper: the plain gas estimate of the filler is the present gas field,
else the engine's block gas limit (line 206 of middleware.rs). -/
theorem maybe_gas_aux {St Ex : Type} (f : Forge St Ex) (s : St)
    (tx : TypedTransaction) :
    maybe tx.gas (f.estimate_gas s tx) = .ok (tx.gas.getD (f.vm.gas_limit s)) := by
  rcases h : tx.gas with - | g <;> simp [maybe, Forge.estimate_gas]

/-- Helper: `set_gas` does not touch the access list. -/
theorem access_list_set_gas_aux (tx : TypedTransaction) (g : Nat) :
    (tx.set_gas g).access_list = tx.access_list := by
  cases tx <;> rfl

/-- C6: when the scheme supports access lists and none is set, the computed
list and its gas figure G′ are adopted iff G′ is strictly below the plain
estimate G; on equality or above, G is kept and the access list stays
empty. -/
theorem access_list_adoption {St Ex : Type} (f : Forge St Ex) (s : St)
    (tx : TypedTransaction) (blk : Option BlockId)
    (al_with_gas : AccessListWithGasUsed)
    (hal : tx.access_list = some [])
    (hcal : f.create_access_list tx blk = .ok al_with_gas) :
    (al_with_gas.gas_used < tx.gas.getD (f.vm.gas_limit s) →
        f.fill_gas_and_access_list s tx blk =
          .ok ((tx.set_access_list al_with_gas.access_list).set_gas
                al_with_gas.gas_used)) ∧
    (tx.gas.getD (f.vm.gas_limit s) ≤ al_with_gas.gas_used →
        f.fill_gas_and_access_list s tx blk =
          .ok (tx.set_gas (tx.gas.getD (f.vm.gas_limit s))) ∧
        (tx.set_gas (tx.gas.getD (f.vm.gas_limit s))).access_list = some []) := by
  have hmaybe := maybe_gas_aux f s tx
  constructor
  · intro hlt
    simp only [Forge.fill_gas_and_access_list, hmaybe, hal, hcal]
    simp [if_pos hlt]
  · intro hge
    refine ⟨?_, by rw [access_list_set_gas_aux]; exact hal⟩
    simp only [Forge.fill_gas_and_access_list, hmaybe, hal, hcal]
    simp [Nat.not_lt.mpr hge]

/-- Witness for C6: the concrete provider's list costs 20000 < 21000 and is
adopted. -/
theorem access_list_adoption_witness :
    testForge.fill_gas_and_access_list 0 tx2930 none =
      .ok ((tx2930.set_access_list [⟨7, [1]⟩]).set_gas 20000) :=
  (access_list_adoption testForge 0 tx2930 none ⟨[⟨7, [1]⟩], 20000⟩ rfl rfl).1 (by decide)

/-- C7: execution behaves exactly as if the sender were explicitly
`DEFAULT_SENDER` when absent and the value explicitly zero when absent. -/
theorem apply_tx_effective_sender_value {St Ex : Type} (f : Forge St Ex) (s : St)
    (tx : TypedTransaction) :
    f.apply_tx s tx =
      f.apply_tx s
        ((tx.set_from (tx.from_.getD DEFAULT_SENDER)).set_value (tx.value.getD 0)) := by
  cases tx <;> rfl

/-- C8 counterexample: `Forge::get_gas_price` reads the local engine
unconditionally, so filling a legacy transaction that targets an explicit
historical block (2, while head − 1 = 4) still takes the engine's gas
price 5, never the remote provider's 7. -/
theorem fill_gas_price_ignores_block_cex :
    testForge.fill_transaction 0 (.Legacy req8) (some (.Number (.Number 2))) =
      .ok (((TypedTransaction.Legacy req8).set_gas 21000).set_gas_price 5) ∧
    (((TypedTransaction.Legacy req8).set_gas 21000).set_gas_price 5).gas_price = some 5 ∧
    testForge.is_latest 0 (.Number (.Number 2)) = .ok false ∧
    testForge.inner.get.get_gas_price = .ok 7 ∧
    testForge.vm.gas_price 0 = 5 ∧ (5 : Nat) ≠ 7 :=
  ⟨rfl, rfl, rfl, rfl, rfl, by decide⟩

/-- Helper: the sender step keeps a legacy transaction legacy and leaves its
gas price untouched. -/
theorem fill_sender_legacy_aux {St Ex : Type} (f : Forge St Ex)
    (r : TransactionRequest) :
    ∃ r1, f.fill_sender (.Legacy r) = .Legacy r1 ∧ r1.gas_price = r.gas_price := by
  rcases hds : f.default_sender with - | ds
  · exact ⟨r, by simp [Forge.fill_sender, hds], rfl⟩
  · by_cases hf : (TypedTransaction.Legacy r).from_ = none
    · exact ⟨{ r with from_ := some ds },
        by simp [Forge.fill_sender, hds, hf, TypedTransaction.set_from], rfl⟩
    · exact ⟨r, by simp [Forge.fill_sender, hds, hf], rfl⟩

/-- Helper: the ENS step keeps a legacy transaction legacy and leaves its
gas price untouched. -/
theorem fill_ens_legacy_aux {St Ex : Type} (f : Forge St Ex)
    (r : TransactionRequest) (tx2 : TypedTransaction)
    (h : f.fill_ens (.Legacy r) = .ok tx2) :
    ∃ r2, tx2 = .Legacy r2 ∧ r2.gas_price = r.gas_price := by
  unfold Forge.fill_ens at h
  rcases hto : r.to_ with - | id
  · simp only [TypedTransaction.to_, hto] at h
    simp at h
    exact ⟨r, h.symm, rfl⟩
  · rcases id with ens | a
    · simp only [TypedTransaction.to_, hto] at h
      rcases hres : f.resolve_name ens with e | addr
      · rw [hres] at h; simp at h
      · rw [hres] at h
        simp at h
        exact ⟨{ r with to_ := some (.Address addr) }, h.symm, rfl⟩
    · simp only [TypedTransaction.to_, hto] at h
      simp at h
      exact ⟨r, h.symm, rfl⟩

/-- Helper: the gas step on a legacy transaction only sets the gas field to
the plain estimate (no access list exists on the legacy scheme). -/
theorem fill_gas_legacy_aux {St Ex : Type} (f : Forge St Ex) (s : St)
    (r : TransactionRequest) (blk : Option BlockId) :
    f.fill_gas_and_access_list s (.Legacy r) blk =
      .ok (.Legacy { r with gas := some (r.gas.getD (f.vm.gas_limit s)) }) := by
  have hm := maybe_gas_aux f s (.Legacy r)
  simp only [Forge.fill_gas_and_access_list, hm]
  simp [TypedTransaction.access_list, TypedTransaction.set_gas, TypedTransaction.gas]

/-- Helper: the fee step on a legacy transaction with unset gas price sets it
to the engine's gas price. -/
theorem fill_fees_legacy_aux {St Ex : Type} (f : Forge St Ex) (s : St)
    (r : TransactionRequest) (hgp : r.gas_price = none) :
    f.fill_fees s (.Legacy r) =
      .ok (.Legacy { r with gas_price := some (f.vm.gas_price s) }) := by
  simp [Forge.fill_fees, TypedTransaction.gas_price, hgp, maybe,
    Forge.get_gas_price, TypedTransaction.set_gas_price]

/-- C8 (amended): filling a legacy transaction whose gas price is unset
populates it from local engine state regardless of the targeted block;
the remote provider is never consulted for the gas price. -/
theorem fill_legacy_gas_price_always_local {St Ex : Type} (f : Forge St Ex)
    (s : St) (r : TransactionRequest) (blk : Option BlockId)
    (txF : TypedTransaction) (hgp : r.gas_price = none)
    (h : f.fill_transaction s (.Legacy r) blk = .ok txF) :
    txF.gas_price = some (f.vm.gas_price s) := by
  unfold Forge.fill_transaction at h
  obtain ⟨r1, hs1, hgp1⟩ := fill_sender_legacy_aux f r
  rw [hs1] at h
  rcases hens : f.fill_ens (.Legacy r1) with e | tx2
  · rw [hens] at h; simp at h
  · rw [hens] at h
    simp only [] at h
    obtain ⟨r2, htx2, hgp2⟩ := fill_ens_legacy_aux f r1 tx2 hens
    subst htx2
    rw [fill_gas_legacy_aux f s r2 blk] at h
    simp only [] at h
    rw [fill_fees_legacy_aux f s { r2 with gas := some (r2.gas.getD (f.vm.gas_limit s)) } (hgp2.trans (hgp1.trans hgp))] at h
    simp at h
    rw [← h]
    simp [TypedTransaction.gas_price]

/-- Witness for C8 (amended) at the concrete dispatch: the filled gas price
is the engine's 5, even though the fill targets historical block 2. -/
theorem fill_legacy_gas_price_always_local_witness :
    ((((TypedTransaction.Legacy req8).set_gas 21000).set_gas_price 5)).gas_price
      = some 5 :=
  fill_legacy_gas_price_always_local testForge 0 req8 (some (.Number (.Number 2)))
    (((TypedTransaction.Legacy req8).set_gas 21000).set_gas_price 5) rfl rfl

/-- C9 counterexample: a failing secondary access-list estimation is silently
recovered — the remote `create_access_list` fails, yet `fill_transaction`
succeeds with the plain estimate instead of returning the failure. -/
theorem access_list_failure_swallowed_cex :
    alFailForge.inner.get.create_access_list tx2930 none
      = .error "access list rpc failure" ∧
    alFailForge.fill_transaction 0 tx2930 none =
      .ok ((tx2930.set_gas 21000).set_gas_price 1) :=
  ⟨rfl, rfl⟩

/-- C9 (amended): every engine or remote failure reached by the core's
operations is wrapped into `ForgeError` and returned immediately, except
the secondary access-list estimation pass of `fill_transaction`, whose
failure is silently discarded and the plain gas estimate kept. -/
theorem error_propagation_except_access_list {St Ex : Type} (f : Forge St Ex)
    (s : St) :
    (∀ tx blk e, tx.access_list = some [] →
        f.inner.get.create_access_list tx blk = .error e →
        f.fill_gas_and_access_list s tx blk =
          .ok (tx.set_gas (tx.gas.getD (f.vm.gas_limit s)))) ∧
    (∀ tx a e s', tx.to_ = some (.Address a) →
        f.vm.call_raw s (tx.from_.getD DEFAULT_SENDER) a (tx.data.getD [])
          (tx.value.getD 0) false = (.error e, s') →
        f.apply_tx s tx = (.error (.EvmError e), s')) ∧
    (∀ tx e s', tx.to_ = none →
        f.vm.deploy s (tx.from_.getD DEFAULT_SENDER) (tx.data.getD [])
          (tx.value.getD 0) = (.error e, s') →
        f.apply_tx s tx = (.error (.EvmError e), s')) ∧
    (∀ tx n e, tx.to_ = some (.Name n) → f.inner.get.resolve_name n = .error e →
        f.apply_tx s tx = (.error (.MiddlewareError e), s)) ∧
    (∀ r e, (r.max_fee_per_gas = none ∨ r.max_priority_fee_per_gas = none) →
        f.inner.get.estimate_eip1559_fees = .error e →
        f.fill_fees s (.Eip1559 r) = .error (.MiddlewareError e)) ∧
    (∀ tx blk e, f.fill_transaction s tx blk = .error e →
        f.send_transaction s tx blk = (.error e, s)) ∧
    (∀ tx blk e s', f.apply_tx s tx = (.error e, s') →
        f.call s tx blk = (.error e, s')) := by
  refine ⟨?_, ?_, ?_, ?_, ?_, ?_, ?_⟩
  · intro tx blk e hal hcal
    have hm := maybe_gas_aux f s tx
    have hw : f.create_access_list tx blk = .error (.MiddlewareError e) := by
      simp [Forge.create_access_list, hcal]
    simp only [Forge.fill_gas_and_access_list, hm, hal]
    simp [hw]
  · intro tx a e s' hto hcr
    simp only [Forge.apply_tx, hto]
    rw [hcr]
  · intro tx e s' hto hdep
    simp only [Forge.apply_tx, hto]
    rw [hdep]
  · intro tx n e hto hres
    simp [Forge.apply_tx, hto, Forge.resolve_name, hres]
  · intro r e hnone hfees
    have hw : f.estimate_eip1559_fees = .error (.MiddlewareError e) := by
      simp [Forge.estimate_eip1559_fees, hfees]
    simp only [Forge.fill_fees]
    rw [if_pos hnone, hw]
  · intro tx blk e hfill
    simp [Forge.send_transaction, hfill]
  · intro tx blk e s' happ
    unfold Forge.call
    rw [happ]

/-- Witness for C9 (amended): the swallowed access-list failure and an
immediately propagated engine failure, at concrete instances. -/
theorem error_propagation_except_access_list_witness :
    alFailForge.fill_gas_and_access_list 0 tx2930 none = .ok (tx2930.set_gas 21000) ∧
    errForge.apply_tx 0 txCall = (.error (.EvmError (.Eyre "vm failure")), 1) :=
  ⟨(error_propagation_except_access_list alFailForge 0).1 tx2930 none
      "access list rpc failure" rfl rfl,
   (error_propagation_except_access_list errForge 0).2.1 txCall 2
      (.Eyre "vm failure") 1 rfl rfl⟩

/-- C10: `estimate_gas` returns the engine's block gas limit for every
transaction — independent of the transaction and of the inner provider —
so the filler's plain estimate for a transaction with unset gas limit is
the block gas limit. -/
theorem estimate_gas_is_block_gas_limit {St Ex : Type} (f g : Forge St Ex)
    (s : St) (tx tx' : TypedTransaction) (hvm : g.vm = f.vm) :
    f.estimate_gas s tx = .ok (f.vm.gas_limit s) ∧
    g.estimate_gas s tx' = f.estimate_gas s tx ∧
    (tx.gas = none → maybe tx.gas (f.estimate_gas s tx)
      = .ok (f.vm.gas_limit s)) := by
  refine ⟨rfl, ?_, ?_⟩
  · simp [Forge.estimate_gas, hvm]
  · intro hg
    simp [maybe, hg, Forge.estimate_gas]

/-- Witness for C10: the filler's plain estimate for `txNoGas` is the block
gas limit, across two dispatch cores sharing the engine. -/
theorem estimate_gas_is_block_gas_limit_witness :
    maybe txNoGas.gas (testForge.estimate_gas 0 txNoGas)
      = .ok (testForge.vm.gas_limit 0) :=
  (estimate_gas_is_block_gas_limit testForge forgeNoProv 0 txNoGas txCall rfl).2.2 rfl

end ForgeMiddleware
